import Mathlib

/-!
Verification of the AITrading scoring-and-recommendation pipeline.

The repository has three near-duplicate scripts:
  * src/ai_trading_system.py        (class PolymarketTradingAI)
  * src/enhanced_market_analyzer.py (class EnhancedMarketAnalyzer)
  * src/simple_market_analyzer.py   (class SimpleMarketAnalyzer)

This file gives a shallow embedding of the pure core of those scripts:
money amounts are rationals (Python floats carry exact decimal literals
here and every constant in the source is a short decimal), timestamps are
integer seconds, and Python's `float(...)` coercion, which can raise
`ValueError` on a non-numeric string, is `Except String`.
-/

/-- Model of Python `str.lower()` (ASCII fold is all the keyword lists need). -/
def pyLower (s : String) : String := String.mk (s.data.map Char.toLower)

/-- Auxiliary for substring search: does the pattern occur right at the
start of the text? -/
def matchesHere : List Char → List Char → Bool
  | [], _ => true
  | _ :: _, [] => false
  | p :: ps, c :: cs => p == c && matchesHere ps cs

/-- Does the pattern occur anywhere in the text (as a contiguous run)? -/
def containsSeq (p : List Char) : List Char → Bool
  | [] => p.isEmpty
  | c :: cs => matchesHere p (c :: cs) || containsSeq p cs

/-- Model of Python `pat in text` on strings: substring containment. -/
def pyContains (text pat : String) : Bool := containsSeq pat.data text.data

/-- Model of `sum(1 for word in words if word in text)` from the sentiment
helpers: how many of the keywords occur in the text. -/
def countHits (words : List String) (text : String) : Nat :=
  (words.filter (fun w => pyContains text w)).length

/-- A raw JSON field the scripts read with `market.get(key, 0)` and pass to
`float`: absent, a number, a numeric string (with the rational it denotes),
or a non-numeric string. -/
inductive RawField
  | absent
  | num (q : ℚ)
  | numStr (q : ℚ)
  | badStr (s : String)
deriving DecidableEq

/-- Model of `float(market.get(key, 0))`: an absent field defaults to `0`
before the conversion, a number or numeric string converts to its value,
and a non-numeric string raises `ValueError`. -/
def pyFloatField : RawField → Except String ℚ
  | .absent => .ok 0
  | .num q => .ok q
  | .numStr q => .ok q
  | .badStr s => .error ("could not convert string to float: " ++ s)

/-- A field on which `float(market.get(key, 0))` does not raise. -/
def RawField.coercible : RawField → Bool
  | .badStr _ => false
  | _ => true

/-- A raw `endDate` value: absent (or the empty string, which the scripts
treat the same way), present but unparseable, or an ISO-8601 timestamp that
parses to `t` seconds. -/
inductive RawDate
  | absent
  | invalid (s : String)
  | valid (t : ℤ)
deriving DecidableEq

/-- Normalization of a raw end date into the optional `end_time` of a
normalized market: absent or unparseable dates become `none`. -/
def parseEndTime : RawDate → Option ℤ
  | .absent => none
  | .invalid _ => none
  | .valid t => some t

/-- Model of `(end_dt - now).days` on timestamps in seconds: Python's
`timedelta.days` floors towards minus infinity. -/
def timedeltaDays (now t : ℤ) : ℤ := (t - now).fdiv 86400

/-- Model of `min(max(score, 0.0), 1.0)`. -/
def clamp01 (x : ℚ) : ℚ := min (max x 0) 1

namespace TradingAI

/- Embedding of src/ai_trading_system.py (class PolymarketTradingAI). -/

def positiveCurrent : List String :=
  ["rate cut", "rate cuts", "stimulus", "growth", "recovery", "bullish", "positive"]

def negativeCurrent : List String :=
  ["rate hike", "recession", "crisis", "crash", "bearish", "negative", "decline"]

def positiveWords : List String :=
  ["win", "success", "up", "rise", "gain", "beat", "victory"]

def negativeWords : List String :=
  ["lose", "fail", "down", "fall", "loss", "defeat"]

/-- The effective (positive, negative) counts of `_get_reddit_sentiment`:
the current economic keywords are counted first, and only when both counts
are zero do the general keywords take over. -/
def redditCounts (question : String) : Nat × Nat :=
  let ql := pyLower question
  let posCur := countHits positiveCurrent ql
  let negCur := countHits negativeCurrent ql
  if posCur + negCur = 0 then
    (countHits positiveWords ql, countHits negativeWords ql)
  else
    (posCur, negCur)

/-- Embedding of `_get_reddit_sentiment`. -/
def getRedditSentiment (question : String) : ℚ :=
  let pn := redditCounts question
  if 0 < pn.1 + pn.2 then (pn.1 : ℚ) / ((pn.1 : ℚ) + (pn.2 : ℚ)) else 1/2

def positiveEcon : List String :=
  ["growth", "boom", "recovery", "increase", "improve", "strong"]

def negativeEcon : List String :=
  ["recession", "crisis", "decline", "weak", "fall", "crash"]

/-- The (positive, negative) counts of `_get_news_sentiment`. -/
def newsCounts (question : String) : Nat × Nat :=
  let ql := pyLower question
  (countHits positiveEcon ql, countHits negativeEcon ql)

/-- Embedding of `_get_news_sentiment`. -/
def getNewsSentiment (question : String) : ℚ :=
  let pn := newsCounts question
  if 0 < pn.1 + pn.2 then (pn.1 : ℚ) / ((pn.1 : ℚ) + (pn.2 : ℚ)) else 1/2

def positiveSocial : List String :=
  ["trending", "popular", "viral", "hype", "excited", "optimistic"]

def negativeSocial : List String :=
  ["controversy", "scandal", "concern", "worried", "pessimistic"]

/-- The (positive, negative) counts of `_get_social_sentiment`. -/
def socialCounts (question : String) : Nat × Nat :=
  let ql := pyLower question
  (countHits positiveSocial ql, countHits negativeSocial ql)

/-- Embedding of `_get_social_sentiment`. -/
def getSocialSentiment (question : String) : ℚ :=
  let pn := socialCounts question
  if 0 < pn.1 + pn.2 then (pn.1 : ℚ) / ((pn.1 : ℚ) + (pn.2 : ℚ)) else 1/2

/-- The `score` field of `_analyze_market_sentiment`: the arithmetic mean
of the three sub-channel scores. -/
def analyzeMarketSentiment (question : String) : ℚ :=
  (getRedditSentiment question + getNewsSentiment question
    + getSocialSentiment question) / 3

/-- The score of `_analyze_historical_performance` as a function of the
coerced volume, liquidity and the event's category. -/
def historicalScore (volume liquidity : ℚ) (category : String) : ℚ :=
  let s1 : ℚ :=
    1/2 + (if volume > 100000 then 1/5
           else if volume > 50000 then 1/10
           else if volume > 10000 then 0
           else -(1/10))
  let s2 : ℚ :=
    s1 + (if liquidity > 10000 then 1/5
          else if liquidity > 1000 then 1/10
          else if liquidity > 100 then 0
          else -(1/5))
  let s3 : ℚ :=
    s2 + (if (["sports", "politics", "crypto"] : List String).contains (pyLower category)
          then 1/10 else 0)
  clamp01 s3

/-- The score of `_assess_trading_risk` as a function of the coerced
liquidity and `days_until_end`. -/
def riskScore (liquidity : ℚ) (daysUntilEnd : ℤ) : ℚ :=
  let t : ℚ :=
    if daysUntilEnd ≤ 1 then -(3/10)
    else if daysUntilEnd ≤ 3 then -(1/5)
    else if daysUntilEnd ≤ 7 then -(1/10)
    else if daysUntilEnd ≤ 30 then 1/10
    else 1/5
  let l : ℚ :=
    if liquidity > 5000 then 1/10
    else if liquidity > 1000 then 0
    else -(1/5)
  clamp01 (1/2 + t + l)

/-- The discrete recommendations of the combiner. -/
inductive Rec
  | BUY
  | SELL
  | HOLD
deriving DecidableEq

/-- The four decision bands of `_generate_recommendation`, checked in the
source's order, first match wins. -/
def decideBands (overall : ℚ) : Rec × ℚ :=
  if overall ≥ 3/5 then (.BUY, overall)
  else if overall ≥ 11/20 then (.BUY, overall)
  else if overall ≤ 2/5 then (.SELL, 1 - overall)
  else if overall ≤ 9/20 then (.SELL, 1 - overall)
  else (.HOLD, 1/2)

structure Recommendation where
  recommendation : Rec
  confidence : ℚ
  overallScore : ℚ
deriving DecidableEq

/-- Embedding of `_generate_recommendation`: the fixed 0.4/0.3/0.3
weighting followed by the decision bands. -/
def generateRecommendation (sentiment historical risk : ℚ) : Recommendation :=
  let overall : ℚ := sentiment * (2/5) + historical * (3/10) + risk * (3/10)
  let d := decideBands overall
  ⟨d.1, d.2, overall⟩

/-- A raw market record as `analyze_market_for_trading` reads it. -/
structure RawMarket where
  id : String
  question : String
  volume : RawField
  liquidity : RawField
  endDate : RawDate
deriving DecidableEq

/-- A raw event record; `category` is read with `event.get('category', '')`. -/
structure RawEvent where
  id : String
  category : String
  endDate : RawDate
deriving DecidableEq

/-- The fields of the analysis dictionary `analyze_market_for_trading`
returns that the pipeline computes (the reasoning strings aside). -/
structure Analysis where
  recommendation : Rec
  confidence : ℚ
  overallScore : ℚ
  sentimentScore : ℚ
  historicalScore : ℚ
  riskScore : ℚ
  volume : ℚ
  liquidity : ℚ
  daysUntilEnd : ℤ
deriving DecidableEq

/-- The `days_until_end` computation: `0` when the end date is absent or
unparseable (the bare `except: pass` keeps the initial `0`). -/
def marketDays (now : ℤ) : RawDate → ℤ
  | .valid t => timedeltaDays now t
  | _ => 0

/-- Embedding of `_analyze_historical_performance`: it re-reads volume and
liquidity with `float(market.get(...))`, so it can raise on a non-numeric
string. -/
def analyzeHistoricalPerformance (event : RawEvent) (market : RawMarket) :
    Except String ℚ := do
  let volume ← pyFloatField market.volume
  let liquidity ← pyFloatField market.liquidity
  return historicalScore volume liquidity event.category

/-- Embedding of `_assess_trading_risk` (it re-reads liquidity with
`float(market.get('liquidity', 0))`). -/
def assessTradingRisk (market : RawMarket) (daysUntilEnd : ℤ) :
    Except String ℚ := do
  let liquidity ← pyFloatField market.liquidity
  return riskScore liquidity daysUntilEnd

/-- Embedding of `analyze_market_for_trading`: the STEP 1..5 pipeline.
`float` coercions raise through the `Except` monad exactly where the
Python would raise `ValueError`. -/
def analyzeMarketForTrading (now : ℤ) (event : RawEvent) (market : RawMarket) :
    Except String Analysis := do
  let volume ← pyFloatField market.volume
  let liquidity ← pyFloatField market.liquidity
  let days := marketDays now market.endDate
  let sentiment := analyzeMarketSentiment market.question
  let historical ← analyzeHistoricalPerformance event market
  let risk ← assessTradingRisk market days
  let r := generateRecommendation sentiment historical risk
  return ⟨r.recommendation, r.confidence, r.overallScore,
          sentiment, historical, risk, volume, liquidity, days⟩

/-- The event-level currency check of `get_current_active_markets`: an
event with a parsed end date is kept only when it ends strictly after now;
absent or unparseable dates are kept. -/
def eventIsCurrent (now : ℤ) : RawDate → Bool
  | .absent => true
  | .invalid _ => true
  | .valid t => decide (t > now)

/-- The market-level activity check of `run_trading_analysis`:
`liquidity > 0 or volume > 1000`. -/
def hasTradingActivity (liquidity volume : ℚ) : Bool :=
  decide (liquidity > 0) || decide (volume > 1000)

/-- The eligibility filter of src/ai_trading_system.py on a normalized
market (optional parsed end time, coerced liquidity and volume): the
event-level expiry check combined with the activity check. -/
def eligibleAI (now : ℤ) (endTime : Option ℤ) (liquidity volume : ℚ) : Bool :=
  (match endTime with
   | none => true
   | some t => decide (t > now)) && hasTradingActivity liquidity volume

end TradingAI

/-- Stable descending insertion by the score component: `x` goes in front
of the first element whose score is at most `x`'s. -/
def insertDesc {α : Type} (x : α × ℚ) : List (α × ℚ) → List (α × ℚ)
  | [] => [x]
  | y :: ys => if y.2 ≤ x.2 then x :: y :: ys else y :: insertDesc x ys

/-- Stable sort, descending by the score component: the model of
`list.sort(key=lambda x: x['hype_score'], reverse=True)`. -/
def sortDesc {α : Type} : List (α × ℚ) → List (α × ℚ)
  | [] => []
  | x :: xs => insertDesc x (sortDesc xs)

/-- A market as the two batch rankers consume it, already coerced: for the
enhanced analyzer `endDate` stands for `event_end_date`, for the simple
analyzer for the market's own `endDate`. -/
structure PMarket where
  question : String
  volume : ℚ
  liquidity : ℚ
  endDate : RawDate
deriving DecidableEq

/-- The expiry skip shared by both batch rankers: only a parsed end date
strictly before now drops the market (`except: pass` keeps unparseable
dates). -/
def expiredSkip (now : ℤ) : RawDate → Bool
  | .valid t => decide (t < now)
  | _ => false

/-- The time-urgency bonus shared by both batch rankers: `+0.2` when the
end date parses and is at most 7 days away. -/
def addUrgencyBonus (now : ℤ) (d : RawDate) (score : ℚ) : ℚ :=
  match d with
  | .valid t => if timedeltaDays now t ≤ 7 then score + 1/5 else score
  | _ => score

namespace Enhanced

/- Embedding of src/enhanced_market_analyzer.py (class EnhancedMarketAnalyzer). -/

/-- Embedding of `_calculate_hype_score`: volume contributes up to 0.6,
liquidity up to 0.4, capped at 1. -/
def calculateHypeScore (volume liquidity : ℚ) : ℚ :=
  let vs : ℚ :=
    if volume > 50000 then 3/5
    else if volume > 20000 then 2/5
    else if volume > 10000 then 3/10
    else if volume > 5000 then 1/5
    else if volume > 1000 then 1/10
    else 0
  let ls : ℚ :=
    if liquidity > 10000 then 2/5
    else if liquidity > 5000 then 3/10
    else if liquidity > 2000 then 1/5
    else if liquidity > 1000 then 1/10
    else if liquidity > 100 then 1/20
    else 0
  min (vs + ls) 1

/-- The per-market body of the loop in `get_current_markets`: skip when
expired, skip when `liquidity <= 0`, score with the urgency bonus, keep
(with `hype_score = min(score, 1.0)`) only when `score > 0.1`. -/
def selectMarket (now : ℤ) (m : PMarket) : Option (PMarket × ℚ) :=
  if expiredSkip now m.endDate then none
  else if m.liquidity ≤ 0 then none
  else
    let score := addUrgencyBonus now m.endDate (calculateHypeScore m.volume m.liquidity)
    if score > 1/10 then some (m, min score 1) else none

/-- The expiry and liquidity checks of `get_current_markets` on their own:
what the enhanced analyzer treats as an eligible (tradeable) market. -/
def eligibleEnhanced (now : ℤ) (m : PMarket) : Bool :=
  !expiredSkip now m.endDate && !decide (m.liquidity ≤ 0)

/-- Embedding of the batch part of `get_current_markets`: filter and
score every market, sort descending by hype score, take the top 5. -/
def getCurrentMarkets (now : ℤ) (ms : List PMarket) : List (PMarket × ℚ) :=
  (sortDesc (ms.filterMap (selectMarket now))).take 5

end Enhanced

namespace SimpleA

/- Embedding of src/simple_market_analyzer.py (class SimpleMarketAnalyzer). -/

/-- Embedding of `_calculate_simple_hype_score`. -/
def calculateSimpleHypeScore (volume liquidity : ℚ) : ℚ :=
  let vs : ℚ :=
    if volume > 10000 then 3/5
    else if volume > 5000 then 2/5
    else if volume > 1000 then 1/5
    else if volume > 100 then 1/10
    else 0
  let ls : ℚ :=
    if liquidity > 5000 then 2/5
    else if liquidity > 1000 then 3/10
    else if liquidity > 500 then 1/5
    else if liquidity > 100 then 1/10
    else 0
  min (vs + ls) 1

/-- The per-market body of the loop in `get_hype_markets`: identical
structure to the enhanced analyzer's, with the simple hype score. -/
def selectHypeMarket (now : ℤ) (m : PMarket) : Option (PMarket × ℚ) :=
  if expiredSkip now m.endDate then none
  else if m.liquidity ≤ 0 then none
  else
    let score := addUrgencyBonus now m.endDate (calculateSimpleHypeScore m.volume m.liquidity)
    if score > 1/10 then some (m, min score 1) else none

/-- Embedding of the batch part of `get_hype_markets`. -/
def getHypeMarkets (now : ℤ) (ms : List PMarket) : List (PMarket × ℚ) :=
  (sortDesc (ms.filterMap (selectHypeMarket now))).take 5

end SimpleA

/-- Modelled from the spec: the two-band decision table of §4.4's note,
which claims the four source bands collapse to. BUY with confidence equal
to the overall score iff it is at least 0.55, SELL with confidence
`1 - overall` iff it is at most 0.45, otherwise HOLD with confidence 0.5. -/
def specTwoBand (overall : ℚ) : TradingAI.Rec × ℚ :=
  if overall ≥ 11/20 then (.BUY, overall)
  else if overall ≤ 9/20 then (.SELL, 1 - overall)
  else (.HOLD, 1/2)

/-! Helper lemmas shared by the claim theorems. -/

theorem ratioScore_bounds (p n : ℕ) :
    0 ≤ (if 0 < p + n then (p : ℚ) / ((p : ℚ) + (n : ℚ)) else 1/2) ∧
      (if 0 < p + n then (p : ℚ) / ((p : ℚ) + (n : ℚ)) else 1/2) ≤ 1 := by
  split_ifs with h
  · have hd : (0 : ℚ) < (p : ℚ) + (n : ℚ) := by exact_mod_cast h
    refine ⟨div_nonneg (by positivity) hd.le, ?_⟩
    rw [div_le_one hd]
    exact le_add_of_nonneg_right (by positivity)
  · norm_num

theorem clamp01_bounds (x : ℚ) : 0 ≤ clamp01 x ∧ clamp01 x ≤ 1 :=
  ⟨le_min (le_max_right x 0) zero_le_one, min_le_right _ 1⟩

theorem mem_insertDesc {α : Type} (x y : α × ℚ) (l : List (α × ℚ)) :
    y ∈ insertDesc x l ↔ y = x ∨ y ∈ l := by
  induction l with
  | nil => simp [insertDesc]
  | cons z zs ih =>
      by_cases h : z.2 ≤ x.2
      · simp [insertDesc, h]
      · simp [insertDesc, h, ih]
        tauto

theorem pairwise_insertDesc {α : Type} (x : α × ℚ) (l : List (α × ℚ))
    (h : l.Pairwise (fun a b => b.2 ≤ a.2)) :
    (insertDesc x l).Pairwise (fun a b => b.2 ≤ a.2) := by
  induction l with
  | nil => simp [insertDesc]
  | cons z zs ih =>
      rcases List.pairwise_cons.mp h with ⟨hz, hzs⟩
      by_cases hc : z.2 ≤ x.2
      · simp only [insertDesc, hc, if_true]
        refine List.pairwise_cons.mpr ⟨?_, h⟩
        intro b hb
        rcases List.mem_cons.mp hb with hb | hb
        · exact hb ▸ hc
        · exact le_trans (hz b hb) hc
      · simp only [insertDesc, hc, if_false]
        refine List.pairwise_cons.mpr ⟨?_, ih hzs⟩
        intro b hb
        rcases (mem_insertDesc x b zs).mp hb with hb | hb
        · exact hb ▸ (le_of_not_le hc)
        · exact hz b hb

theorem pairwise_sortDesc {α : Type} (l : List (α × ℚ)) :
    (sortDesc l).Pairwise (fun a b => b.2 ≤ a.2) := by
  induction l with
  | nil => simp [sortDesc]
  | cons x xs ih => exact pairwise_insertDesc x (sortDesc xs) ih

theorem mem_sortDesc {α : Type} (y : α × ℚ) (l : List (α × ℚ)) :
    y ∈ sortDesc l ↔ y ∈ l := by
  induction l with
  | nil => simp [sortDesc]
  | cons x xs ih => simp [sortDesc, mem_insertDesc, ih]

theorem redditSentiment_bounds (q : String) :
    0 ≤ TradingAI.getRedditSentiment q ∧ TradingAI.getRedditSentiment q ≤ 1 :=
  ratioScore_bounds (TradingAI.redditCounts q).1 (TradingAI.redditCounts q).2

theorem newsSentiment_bounds (q : String) :
    0 ≤ TradingAI.getNewsSentiment q ∧ TradingAI.getNewsSentiment q ≤ 1 :=
  ratioScore_bounds (TradingAI.newsCounts q).1 (TradingAI.newsCounts q).2

theorem socialSentiment_bounds (q : String) :
    0 ≤ TradingAI.getSocialSentiment q ∧ TradingAI.getSocialSentiment q ≤ 1 :=
  ratioScore_bounds (TradingAI.socialCounts q).1 (TradingAI.socialCounts q).2

/-- C3: for every normalized market input, each of the four signal scorers
(sentiment, historical, risk, hype — the latter in both the enhanced and
the simple variant) returns a score in the closed interval [0, 1]. -/
theorem C3_signal_scores_unit_interval :
    ∀ (question category : String) (volume liquidity : ℚ) (daysUntilEnd : ℤ),
      (0 ≤ TradingAI.analyzeMarketSentiment question
        ∧ TradingAI.analyzeMarketSentiment question ≤ 1)
    ∧ (0 ≤ TradingAI.historicalScore volume liquidity category
        ∧ TradingAI.historicalScore volume liquidity category ≤ 1)
    ∧ (0 ≤ TradingAI.riskScore liquidity daysUntilEnd
        ∧ TradingAI.riskScore liquidity daysUntilEnd ≤ 1)
    ∧ (0 ≤ Enhanced.calculateHypeScore volume liquidity
        ∧ Enhanced.calculateHypeScore volume liquidity ≤ 1)
    ∧ (0 ≤ SimpleA.calculateSimpleHypeScore volume liquidity
        ∧ SimpleA.calculateSimpleHypeScore volume liquidity ≤ 1) := by
  intro q c v l d
  refine ⟨?_, clamp01_bounds _, clamp01_bounds _, ?_, ?_⟩
  · obtain ⟨h1, h2⟩ := redditSentiment_bounds q
    obtain ⟨h3, h4⟩ := newsSentiment_bounds q
    obtain ⟨h5, h6⟩ := socialSentiment_bounds q
    unfold TradingAI.analyzeMarketSentiment
    constructor <;> [positivity; skip]
    rw [div_le_one (by norm_num)]
    linarith
  · simp only [Enhanced.calculateHypeScore]
    refine ⟨le_min ?_ zero_le_one, min_le_right _ _⟩
    apply add_nonneg <;> (split_ifs <;> norm_num)
  · simp only [SimpleA.calculateSimpleHypeScore]
    refine ⟨le_min ?_ zero_le_one, min_le_right _ _⟩
    apply add_nonneg <;> (split_ifs <;> norm_num)

/-- C5: the four-band decision logic of `_generate_recommendation`
(>= 0.6 BUY, >= 0.55 BUY, <= 0.4 SELL, <= 0.45 SELL, else HOLD, first
match wins) is extensionally equal to the spec's two-band table; the
tighter thresholds are unreachable as distinct branches. -/
theorem C5_bands_collapse_to_two : ∀ overall : ℚ,
    TradingAI.decideBands overall = specTwoBand overall := by
  intro o
  unfold TradingAI.decideBands specTwoBand
  split_ifs <;> first | rfl | (exfalso; linarith)

/-- C4: the combiner weighs sentiment 0.4, historical 0.3, risk 0.3, and
over the resulting overall score the bands give: overall = 0.58 resolves
to BUY with confidence 0.58, overall = 0.50 to HOLD with confidence 0.5
(shown both for arbitrary scores attaining those overalls and at the
concrete equal-score inputs). -/
theorem C4_weights_and_decision_bands :
    (∀ s h r : ℚ, (TradingAI.generateRecommendation s h r).overallScore
        = s * (2/5) + h * (3/10) + r * (3/10))
  ∧ (∀ s h r : ℚ, s * (2/5) + h * (3/10) + r * (3/10) = 29/50 →
        (TradingAI.generateRecommendation s h r).recommendation = TradingAI.Rec.BUY
      ∧ (TradingAI.generateRecommendation s h r).confidence = 29/50)
  ∧ (∀ s h r : ℚ, s * (2/5) + h * (3/10) + r * (3/10) = 1/2 →
        (TradingAI.generateRecommendation s h r).recommendation = TradingAI.Rec.HOLD
      ∧ (TradingAI.generateRecommendation s h r).confidence = 1/2)
  ∧ (TradingAI.generateRecommendation (29/50) (29/50) (29/50)).recommendation
      = TradingAI.Rec.BUY
  ∧ (TradingAI.generateRecommendation (29/50) (29/50) (29/50)).confidence = 29/50
  ∧ (TradingAI.generateRecommendation (1/2) (1/2) (1/2)).recommendation
      = TradingAI.Rec.HOLD
  ∧ (TradingAI.generateRecommendation (1/2) (1/2) (1/2)).confidence = 1/2 := by
  refine ⟨fun s h r => rfl, ?_, ?_, ?_, ?_, ?_, ?_⟩
  · intro s h r ho
    simp only [TradingAI.generateRecommendation, ho, TradingAI.decideBands]
    norm_num
  · intro s h r ho
    simp only [TradingAI.generateRecommendation, ho, TradingAI.decideBands]
    norm_num
  all_goals
    simp only [TradingAI.generateRecommendation, TradingAI.decideBands]
    norm_num

theorem hype_mono_volume (v₁ v₂ l : ℚ) (hv : v₁ ≤ v₂) :
    Enhanced.calculateHypeScore v₁ l ≤ Enhanced.calculateHypeScore v₂ l := by
  simp only [Enhanced.calculateHypeScore]
  refine min_le_min (add_le_add ?_ le_rfl) le_rfl
  split_ifs <;> linarith

theorem hype_mono_liquidity (v l₁ l₂ : ℚ) (hl : l₁ ≤ l₂) :
    Enhanced.calculateHypeScore v l₁ ≤ Enhanced.calculateHypeScore v l₂ := by
  simp only [Enhanced.calculateHypeScore]
  refine min_le_min (add_le_add le_rfl ?_) le_rfl
  split_ifs <;> linarith

theorem simpleHype_mono_volume (v₁ v₂ l : ℚ) (hv : v₁ ≤ v₂) :
    SimpleA.calculateSimpleHypeScore v₁ l ≤ SimpleA.calculateSimpleHypeScore v₂ l := by
  simp only [SimpleA.calculateSimpleHypeScore]
  refine min_le_min (add_le_add ?_ le_rfl) le_rfl
  split_ifs <;> linarith

theorem simpleHype_mono_liquidity (v l₁ l₂ : ℚ) (hl : l₁ ≤ l₂) :
    SimpleA.calculateSimpleHypeScore v l₁ ≤ SimpleA.calculateSimpleHypeScore v l₂ := by
  simp only [SimpleA.calculateSimpleHypeScore]
  refine min_le_min (add_le_add le_rfl ?_) le_rfl
  split_ifs <;> linarith

/-- C7: both hype scorers are monotonic non-decreasing in volume holding
liquidity fixed and in liquidity holding volume fixed. -/
theorem C7_hype_monotone (v₁ v₂ l₁ l₂ : ℚ) (hv : v₁ ≤ v₂) (hl : l₁ ≤ l₂) :
    Enhanced.calculateHypeScore v₁ l₁ ≤ Enhanced.calculateHypeScore v₂ l₁
  ∧ Enhanced.calculateHypeScore v₁ l₁ ≤ Enhanced.calculateHypeScore v₁ l₂
  ∧ SimpleA.calculateSimpleHypeScore v₁ l₁ ≤ SimpleA.calculateSimpleHypeScore v₂ l₁
  ∧ SimpleA.calculateSimpleHypeScore v₁ l₁ ≤ SimpleA.calculateSimpleHypeScore v₁ l₂ :=
  ⟨hype_mono_volume v₁ v₂ l₁ hv, hype_mono_liquidity v₁ l₁ l₂ hl,
   simpleHype_mono_volume v₁ v₂ l₁ hv, simpleHype_mono_liquidity v₁ l₁ l₂ hl⟩

theorem C7_hype_monotone_witness :
    Enhanced.calculateHypeScore 0 0 ≤ Enhanced.calculateHypeScore 1 0
  ∧ Enhanced.calculateHypeScore 0 0 ≤ Enhanced.calculateHypeScore 0 1
  ∧ SimpleA.calculateSimpleHypeScore 0 0 ≤ SimpleA.calculateSimpleHypeScore 1 0
  ∧ SimpleA.calculateSimpleHypeScore 0 0 ≤ SimpleA.calculateSimpleHypeScore 0 1 :=
  C7_hype_monotone 0 1 0 1 (by norm_num) (by norm_num)

/-- C9: whenever the three input scores lie in [0, 1], a BUY or SELL
recommendation carries confidence at least 0.55 and a HOLD recommendation
carries confidence exactly 0.5. -/
theorem C9_confidence_floor (s h r : ℚ)
    (hs0 : 0 ≤ s) (hs1 : s ≤ 1) (hh0 : 0 ≤ h) (hh1 : h ≤ 1)
    (hr0 : 0 ≤ r) (hr1 : r ≤ 1) :
    ((TradingAI.generateRecommendation s h r).recommendation = TradingAI.Rec.BUY
      ∨ (TradingAI.generateRecommendation s h r).recommendation = TradingAI.Rec.SELL →
        11/20 ≤ (TradingAI.generateRecommendation s h r).confidence)
  ∧ ((TradingAI.generateRecommendation s h r).recommendation = TradingAI.Rec.HOLD →
        (TradingAI.generateRecommendation s h r).confidence = 1/2) := by
  simp only [TradingAI.generateRecommendation, TradingAI.decideBands]
  split_ifs with h1 h2 h3 h4 <;>
    refine ⟨fun hx => ?_, fun hx => ?_⟩ <;>
    simp_all <;>
    linarith

theorem C9_confidence_floor_witness :
    ((TradingAI.generateRecommendation (1/2) (1/2) (1/2)).recommendation = TradingAI.Rec.BUY
      ∨ (TradingAI.generateRecommendation (1/2) (1/2) (1/2)).recommendation
          = TradingAI.Rec.SELL →
        11/20 ≤ (TradingAI.generateRecommendation (1/2) (1/2) (1/2)).confidence)
  ∧ ((TradingAI.generateRecommendation (1/2) (1/2) (1/2)).recommendation
        = TradingAI.Rec.HOLD →
        (TradingAI.generateRecommendation (1/2) (1/2) (1/2)).confidence = 1/2) :=
  C9_confidence_floor (1/2) (1/2) (1/2) (by norm_num) (by norm_num) (by norm_num)
    (by norm_num) (by norm_num) (by norm_num)

/-- C1 counterexample: a market whose volume field is a non-numeric string
makes `analyze_market_for_trading` raise `ValueError` inside
`float(market.get('volume', 0))` — no recommendation is produced. -/
theorem C1_counterexample :
    TradingAI.analyzeMarketForTrading 0 ⟨"", "", RawDate.absent⟩
        ⟨"", "", RawField.badStr "N/A", RawField.num 5000, RawDate.absent⟩
      = Except.error "could not convert string to float: N/A" := rfl

/-- C1 (amended): an absent volume or liquidity field is coerced to 0.0
(the `market.get(key, 0)` default) and the analysis completes and produces
a recommendation; but a present non-numeric field raises a conversion
error, so the pipeline does not complete for it. -/
theorem C1_absent_fields_default (now : ℤ) (event : TradingAI.RawEvent)
    (market : TradingAI.RawMarket)
    (hv : market.volume.coercible = true) (hl : market.liquidity.coercible = true) :
    (∃ a, TradingAI.analyzeMarketForTrading now event market = Except.ok a)
  ∧ pyFloatField RawField.absent = Except.ok 0 := by
  refine ⟨?_, rfl⟩
  rcases market with ⟨i, q, fv, fl, d⟩
  cases fv <;> cases fl <;> simp [RawField.coercible] at hv hl <;> exact ⟨_, rfl⟩

theorem C1_absent_fields_default_witness :
    (∃ a, TradingAI.analyzeMarketForTrading 0 ⟨"", "", RawDate.absent⟩
        ⟨"", "", RawField.absent, RawField.absent, RawDate.absent⟩ = Except.ok a)
  ∧ pyFloatField RawField.absent = Except.ok 0 :=
  C1_absent_fields_default 0 ⟨"", "", RawDate.absent⟩
    ⟨"", "", RawField.absent, RawField.absent, RawDate.absent⟩ rfl rfl

/-- C2 counterexample: a never-expiring market with liquidity 0 and volume
2000 is NOT eligible for the enhanced analyzer (its filter demands
`liquidity > 0` unconditionally and drops the market before scoring),
although the ai_trading_system filter — and the claim — call it eligible. -/
theorem C2_counterexample :
    Enhanced.eligibleEnhanced 0 ⟨"", 2000, 0, RawDate.absent⟩ = false
  ∧ Enhanced.getCurrentMarkets 0 [⟨"", 2000, 0, RawDate.absent⟩] = []
  ∧ TradingAI.eligibleAI 0 none 0 2000 = true := by
  refine ⟨?_, ?_, ?_⟩
  · simp [Enhanced.eligibleEnhanced, expiredSkip]
  · simp [Enhanced.getCurrentMarkets, Enhanced.selectMarket, expiredSkip, sortDesc]
  · norm_num [TradingAI.eligibleAI, TradingAI.hasTradingActivity]

/-- C2 (amended): the ai_trading_system filter matches the claim — a
market is eligible iff its end time (when present) is strictly after now
and `liquidity > 0 or volume > 1000`; the enhanced analyzer's filter
instead demands `liquidity > 0` unconditionally (volume cannot compensate)
and keeps a market whose end time equals now (it drops only end times
strictly in the past). -/
theorem C2_two_eligibility_filters :
    (∀ (now : ℤ) (endTime : Option ℤ) (liquidity volume : ℚ),
       TradingAI.eligibleAI now endTime liquidity volume = true ↔
         (∀ t, endTime = some t → now < t) ∧ (0 < liquidity ∨ 1000 < volume))
  ∧ (∀ (now : ℤ) (m : PMarket),
       Enhanced.eligibleEnhanced now m = true ↔
         (∀ t, m.endDate = RawDate.valid t → now ≤ t) ∧ 0 < m.liquidity) := by
  constructor
  · intro now endTime liq vol
    cases endTime with
    | none => simp [TradingAI.eligibleAI, TradingAI.hasTradingActivity]
    | some t => simp [TradingAI.eligibleAI, TradingAI.hasTradingActivity]
  · intro now m
    rcases m with ⟨q, v, l, d⟩
    cases d <;> simp [Enhanced.eligibleEnhanced, expiredSkip, not_lt, not_le]

/-- C8: both batch rankers return at most 5 markets and the returned
sequence is sorted descending by the stored hype score. -/
theorem C8_ranker_top5_sorted :
    ∀ (now : ℤ) (ms : List PMarket),
      (Enhanced.getCurrentMarkets now ms).length ≤ 5
    ∧ (Enhanced.getCurrentMarkets now ms).Pairwise (fun a b => b.2 ≤ a.2)
    ∧ (SimpleA.getHypeMarkets now ms).length ≤ 5
    ∧ (SimpleA.getHypeMarkets now ms).Pairwise (fun a b => b.2 ≤ a.2) := by
  intro now ms
  exact ⟨List.length_take_le _ _,
         List.Pairwise.sublist (List.take_sublist _ _) (pairwise_sortDesc _),
         List.length_take_le _ _,
         List.Pairwise.sublist (List.take_sublist _ _) (pairwise_sortDesc _)⟩

theorem selectMarket_inversion (now : ℤ) (m : PMarket) (p : PMarket × ℚ)
    (h : Enhanced.selectMarket now m = some p) :
    p.1 = m
  ∧ 1/10 < addUrgencyBonus now m.endDate (Enhanced.calculateHypeScore m.volume m.liquidity)
  ∧ 1/10 < p.2 ∧ p.2 ≤ 1 := by
  simp only [Enhanced.selectMarket] at h
  split_ifs at h with h1 h2 h3
  cases h
  exact ⟨rfl, h3, lt_min h3 (by norm_num), min_le_right _ _⟩

theorem selectHypeMarket_inversion (now : ℤ) (m : PMarket) (p : PMarket × ℚ)
    (h : SimpleA.selectHypeMarket now m = some p) :
    p.1 = m
  ∧ 1/10 < addUrgencyBonus now m.endDate (SimpleA.calculateSimpleHypeScore m.volume m.liquidity)
  ∧ 1/10 < p.2 ∧ p.2 ≤ 1 := by
  simp only [SimpleA.selectHypeMarket] at h
  split_ifs at h with h1 h2 h3
  cases h
  exact ⟨rfl, h3, lt_min h3 (by norm_num), min_le_right _ _⟩

theorem mem_getCurrentMarkets (now : ℤ) (ms : List PMarket) (p : PMarket × ℚ)
    (hp : p ∈ Enhanced.getCurrentMarkets now ms) :
    ∃ m ∈ ms, Enhanced.selectMarket now m = some p := by
  simp only [Enhanced.getCurrentMarkets] at hp
  exact List.mem_filterMap.mp ((mem_sortDesc _ _).mp (List.mem_of_mem_take hp))

theorem mem_getHypeMarkets (now : ℤ) (ms : List PMarket) (p : PMarket × ℚ)
    (hp : p ∈ SimpleA.getHypeMarkets now ms) :
    ∃ m ∈ ms, SimpleA.selectHypeMarket now m = some p := by
  simp only [SimpleA.getHypeMarkets] at hp
  exact List.mem_filterMap.mp ((mem_sortDesc _ _).mp (List.mem_of_mem_take hp))

/-- C10: both batch pre-filters drop every market whose urgency-adjusted
hype score is at most 0.1 — such a market can pass the expiry and
liquidity checks and still be excluded from ranking, as the concrete
market with volume 500 and liquidity 50 shows — and every market the
rankers return has a stored hype score in (0.1, 1]. -/
theorem C10_prefilter_threshold :
    (∀ (now : ℤ) (ms : List PMarket) (p : PMarket × ℚ),
        p ∈ Enhanced.getCurrentMarkets now ms → 1/10 < p.2 ∧ p.2 ≤ 1)
  ∧ (∀ (now : ℤ) (ms : List PMarket) (m : PMarket),
        addUrgencyBonus now m.endDate
            (Enhanced.calculateHypeScore m.volume m.liquidity) ≤ 1/10 →
          m ∉ (Enhanced.getCurrentMarkets now ms).map Prod.fst)
  ∧ (∀ (now : ℤ) (ms : List PMarket) (p : PMarket × ℚ),
        p ∈ SimpleA.getHypeMarkets now ms → 1/10 < p.2 ∧ p.2 ≤ 1)
  ∧ (∀ (now : ℤ) (ms : List PMarket) (m : PMarket),
        addUrgencyBonus now m.endDate
            (SimpleA.calculateSimpleHypeScore m.volume m.liquidity) ≤ 1/10 →
          m ∉ (SimpleA.getHypeMarkets now ms).map Prod.fst)
  ∧ Enhanced.eligibleEnhanced 0 ⟨"", 500, 50, RawDate.absent⟩ = true
  ∧ Enhanced.getCurrentMarkets 0 [⟨"", 500, 50, RawDate.absent⟩] = [] := by
  refine ⟨?_, ?_, ?_, ?_, ?_, ?_⟩
  · intro now ms p hp
    obtain ⟨m, _, hsel⟩ := mem_getCurrentMarkets now ms p hp
    obtain ⟨-, -, h2, h3⟩ := selectMarket_inversion now m p hsel
    exact ⟨h2, h3⟩
  · intro now ms m hle hmem
    rw [List.mem_map] at hmem
    obtain ⟨p, hp, hfst⟩ := hmem
    obtain ⟨m', _, hsel⟩ := mem_getCurrentMarkets now ms p hp
    obtain ⟨h1, h2, -, -⟩ := selectMarket_inversion now m' p hsel
    rw [h1] at hfst
    rw [hfst] at h2
    linarith
  · intro now ms p hp
    obtain ⟨m, _, hsel⟩ := mem_getHypeMarkets now ms p hp
    obtain ⟨-, -, h2, h3⟩ := selectHypeMarket_inversion now m p hsel
    exact ⟨h2, h3⟩
  · intro now ms m hle hmem
    rw [List.mem_map] at hmem
    obtain ⟨p, hp, hfst⟩ := hmem
    obtain ⟨m', _, hsel⟩ := mem_getHypeMarkets now ms p hp
    obtain ⟨h1, h2, -, -⟩ := selectHypeMarket_inversion now m' p hsel
    rw [h1] at hfst
    rw [hfst] at h2
    linarith
  · norm_num [Enhanced.eligibleEnhanced, expiredSkip]
  · norm_num [Enhanced.getCurrentMarkets, Enhanced.selectMarket, expiredSkip,
      addUrgencyBonus, Enhanced.calculateHypeScore, sortDesc]

/-- C6: every sentiment sub-channel scores 0.5 when its effective positive
and negative keyword counts are both zero and `pos/(pos+neg)` otherwise
(for the Reddit channel the effective counts come from the current-events
keyword tier, falling back to the general tier); the overall sentiment
score is the arithmetic mean of the three channels; and a question with
exactly two positive and zero negative keywords of a channel's set — as
"Will growth recovery happen in 2025?" for the news channel — yields
sub-score 1 for that channel. -/
theorem C6_sentiment_subchannels :
    (∀ q : String, TradingAI.getRedditSentiment q =
        (if (TradingAI.redditCounts q).1 + (TradingAI.redditCounts q).2 = 0 then 1/2
         else ((TradingAI.redditCounts q).1 : ℚ)
            / (((TradingAI.redditCounts q).1 : ℚ) + ((TradingAI.redditCounts q).2 : ℚ))))
  ∧ (∀ q : String, TradingAI.getNewsSentiment q =
        (if (TradingAI.newsCounts q).1 + (TradingAI.newsCounts q).2 = 0 then 1/2
         else ((TradingAI.newsCounts q).1 : ℚ)
            / (((TradingAI.newsCounts q).1 : ℚ) + ((TradingAI.newsCounts q).2 : ℚ))))
  ∧ (∀ q : String, TradingAI.getSocialSentiment q =
        (if (TradingAI.socialCounts q).1 + (TradingAI.socialCounts q).2 = 0 then 1/2
         else ((TradingAI.socialCounts q).1 : ℚ)
            / (((TradingAI.socialCounts q).1 : ℚ) + ((TradingAI.socialCounts q).2 : ℚ))))
  ∧ (∀ q : String, TradingAI.analyzeMarketSentiment q =
        (TradingAI.getRedditSentiment q + TradingAI.getNewsSentiment q
          + TradingAI.getSocialSentiment q) / 3)
  ∧ (∀ q : String, TradingAI.newsCounts q = (2, 0) → TradingAI.getNewsSentiment q = 1)
  ∧ TradingAI.newsCounts "Will growth recovery happen in 2025?" = (2, 0)
  ∧ TradingAI.getNewsSentiment "Will growth recovery happen in 2025?" = 1 := by
  have hflip : ∀ pn : Nat × Nat,
      (if 0 < pn.1 + pn.2 then (pn.1 : ℚ) / ((pn.1 : ℚ) + (pn.2 : ℚ)) else 1/2)
        = (if pn.1 + pn.2 = 0 then 1/2
           else (pn.1 : ℚ) / ((pn.1 : ℚ) + (pn.2 : ℚ))) := by
    intro pn
    by_cases h : pn.1 + pn.2 = 0
    · simp [h]
    · simp [h, Nat.pos_of_ne_zero h]
  have hnews2 : ∀ q : String, TradingAI.newsCounts q = (2, 0) →
      TradingAI.getNewsSentiment q = 1 := by
    intro q h
    simp only [TradingAI.getNewsSentiment, h]
    norm_num
  have hcount : TradingAI.newsCounts "Will growth recovery happen in 2025?" = (2, 0) := by
    decide
  exact ⟨fun q => hflip (TradingAI.redditCounts q),
         fun q => hflip (TradingAI.newsCounts q),
         fun q => hflip (TradingAI.socialCounts q),
         fun q => rfl, hnews2, hcount, hnews2 _ hcount⟩
